import Mathlib

/-!
Shallow embedding of `kubernetes/resource_kubernetes_persistent_volume_claim.go`
from the terraform-provider-kubernetes repository: the lifecycle controller for
a persistent volume claim (Create / Read / Update / Delete / Exists plus
the import path), together with the convergence waiter and diagnostic
collection it relies on.

Remote cluster interactions are modelled as an explicit environment of
response oracles (`Conn`); the waiter's successive status polls are modelled
as a finite list of poll responses (the finiteness of the list plays the role
of the wall-clock deadline).  Go `error` values are modelled by `GoError`,
distinguishing a typed status error carrying an HTTP code (the
`*errors.StatusError` case the code inspects) from any other error.
Each lifecycle operation returns the updated local state, an optional error,
and the trace of remote calls it issued.
-/

/-- Object metadata: the (namespace, name) identity pair of a cluster object
(`meta_v1.ObjectMeta`, restricted to the fields this file touches). -/
structure ObjectMeta where
  ns : String
  name : String
deriving DecidableEq, Repr

/-- The part of a claim's spec this file touches: the bound-volume
back-reference `Spec.VolumeName` (may be empty while unbound). -/
structure PersistentVolumeClaimSpec where
  volumeName : String
deriving DecidableEq, Repr

/-- A persistent volume claim as returned by the cluster API: metadata, spec
and the observed status phase (`fmt.Sprintf("%v", out.Status.Phase)` renders
the phase as a string, so the phase is modelled as a string directly). -/
structure PersistentVolumeClaim where
  objectMeta : ObjectMeta
  spec : PersistentVolumeClaimSpec
  statusPhase : String
deriving DecidableEq, Repr

/-- A Go `error` value as this file distinguishes them: `status code msg`
models a `*k8s.io/apimachinery/pkg/api/errors.StatusError` whose
`ErrStatus.Code` is `code`; `simple msg` models every other error
(transport failures, formatted errors, decode failures). -/
inductive GoError where
  | status (code : Nat) (msg : String)
  | simple (msg : String)
deriving DecidableEq, Repr

/-- A cluster event record (`api.Event`, restricted to the fields the
diagnostics rendering uses), with a numeric timestamp for recency ordering
and a severity tag distinguishing warning events. -/
structure Event where
  involvedName : String
  reason : String
  message : String
  timestamp : Nat
  isWarning : Bool
deriving DecidableEq, Repr

/-- One JSON-patch operation, as produced by the metadata patch builder. -/
structure PatchOp where
  op : String
  path : String
  value : String
deriving DecidableEq, Repr

/-- A remote interaction issued by a lifecycle operation.  `wait` records an
invocation of the convergence waiter together with its configured
target (success) and pending phase sets; `listEvents` records a diagnostic
event query with its kind, object identity and event cap. -/
inductive ApiCall where
  | create (ns : String) (claim : PersistentVolumeClaim)
  | get (ns : String) (name : String)
  | patch (ns : String) (name : String) (ops : List PatchOp)
  | delete (ns : String) (name : String)
  | wait (target : List String) (pending : List String)
  | listEvents (kind : String) (objectMeta : ObjectMeta) (cap : Nat)
deriving DecidableEq, Repr

/-- Resolution of a convergence wait: success with the final observation,
failure on an unexpected phase, failure propagating a poll error, or the
deadline elapsing with the last observed phase. -/
inductive WaitResult where
  | success (obs : PersistentVolumeClaim)
  | unexpectedPhase (phase : String)
  | pollError (e : GoError)
  | deadlineExceeded (lastPhase : String)
deriving DecidableEq, Repr

/-- Whether a wait resolution is the success outcome. -/
def WaitResult.isSuccess : WaitResult → Bool
  | WaitResult.success _ => true
  | _ => false

/-- The message text of a Go error value. -/
def GoError.message : GoError → String
  | .status _ msg => msg
  | .simple msg => msg

/-- Modelled from the spec: the Identity Codec's `encode` (`buildId`, defined
elsewhere in the repository).  Encodes the `namespace/name` identity string
persisted in local state. -/
def buildId (m : ObjectMeta) : String :=
  m.ns ++ "/" ++ m.name

/-- Modelled from the spec: the Identity Codec's `decode` (`idParts`, defined
elsewhere in the repository).  Splits a persisted identity string into
(namespace, name); fails with a malformed-identity error when the string does
not have the expected delimiter/segment count. -/
def idParts (id : String) : Except GoError (String × String) :=
  match id.data.splitOn '/' with
  | [ns, name] => Except.ok (⟨ns⟩, ⟨name⟩)
  | _ => Except.error (GoError.simple ("Unexpected ID format (\x22namespace/name\x22 expected): " ++ id))

/-- Insert an event into a newest-first list, keeping it ordered by
timestamp descending. -/
def insertNewestFirst (e : Event) : List Event → List Event
  | [] => [e]
  | x :: xs =>
      if x.timestamp ≤ e.timestamp then e :: x :: xs
      else x :: insertNewestFirst e xs

/-- Order events newest first (recency ordering of the diagnostic design). -/
def sortNewestFirst (l : List Event) : List Event :=
  l.foldr insertNewestFirst []

/-- The remote cluster API, modelled as response oracles for the single-shot
calls this file issues.  `deletePVC` returns `none` for a nil Go error. -/
structure Conn where
  createPVC : String → PersistentVolumeClaim → Except GoError PersistentVolumeClaim
  getPVC : String → String → Except GoError PersistentVolumeClaim
  patchPVC : String → String → List PatchOp → Except GoError PersistentVolumeClaim
  deletePVC : String → String → Option GoError
  listEvents : String → ObjectMeta → Except GoError (List Event)

/-- Modelled from the spec: the Diagnostic Collector's
`getLastWarningsForObject` (defined elsewhere in the repository).  Queries
the events scoped to the given kind and identity, keeps the warning-severity
ones, orders them most-recent-first and caps the result at `cap`; an empty
result is a valid non-error outcome, only a failing query is an error. -/
def getLastWarningsForObject (conn : Conn) (m : ObjectMeta) (kind : String) (cap : Nat) :
    Except GoError (List Event) :=
  match conn.listEvents kind m with
  | Except.error e => Except.error e
  | Except.ok evs => Except.ok ((sortNewestFirst (evs.filter (·.isWarning))).take cap)

/-- Modelled from the spec: `stringifyEvents` (defined elsewhere in the
repository) renders the collected events human-readably, each with object
name, reason and message, in the given (newest-first) order. -/
def stringifyEvents (events : List Event) : String :=
  events.foldl
    (fun acc e => acc ++ "\n  * " ++ e.involvedName ++ ": " ++ e.reason ++ ": " ++ e.message) ""

/-- Modelled from the spec: the message a failed convergence wait surfaces
(`ConvergenceTimeout` carries the last-known phase, `ConvergenceFailed` the
offending phase, a poll error is propagated). -/
def waitErrorMessage : WaitResult → String
  | WaitResult.success _ => ""
  | WaitResult.unexpectedPhase ph => "unexpected state " ++ ph
  | WaitResult.pollError e => e.message
  | WaitResult.deadlineExceeded ph => "timeout while waiting for state, last state: " ++ ph

/-- Modelled from the spec: the Convergence Waiter
(`resource.StateChangeConf.WaitForState`, a library dependency outside this
repository).  It consumes the successive poll responses: a phase in the
target set resolves success with that observation; a phase in the pending set
continues polling; any other phase resolves failure with the unexpected
phase; a poll error resolves failure propagating the error; exhausting the
polls (the deadline elapsing) resolves deadline-exceeded carrying the last
observed phase.  The code's refresh function maps a successful Get to the
claim and its rendered status phase and propagates Get errors. -/
def waitForState (target pending : List String) (lastPhase : String)
    (polls : List (Except GoError PersistentVolumeClaim)) : WaitResult :=
  match polls with
  | [] => WaitResult.deadlineExceeded lastPhase
  | p :: rest =>
      match p with
      | Except.error e => WaitResult.pollError e
      | Except.ok out =>
          if target.contains out.statusPhase then WaitResult.success out
          else if pending.contains out.statusPhase then
            waitForState target pending out.statusPhase rest
          else WaitResult.unexpectedPhase out.statusPhase

/-- The local controller record (`*schema.ResourceData`, restricted to what
this file reads and writes): the persisted identity string, the
`wait_until_bound` flag, the expanded desired metadata and spec (the external
Spec Translator's outputs; spec expansion may fail), the pending metadata
diff Update patches (sub-path inside the metadata sub-tree, new value), and
the last-observed mirrors populated by Read. -/
structure ResourceData where
  id : String
  waitUntilBound : Bool
  desiredMetadata : ObjectMeta
  desiredSpec : Except String PersistentVolumeClaimSpec
  metadataDiff : List (String × String)
  stateMetadata : Option ObjectMeta
  stateSpec : Option PersistentVolumeClaimSpec

/-- Modelled from the spec: `patchMetadata` (defined elsewhere in the
repository) builds the JSON-patch operations for the pending metadata
changes, each at `pathPref` followed by the changed sub-path; Update passes
`pathPref = "/metadata/"`, so every operation stays inside the metadata
sub-tree. -/
def patchMetadata (_keyPref pathPref : String) (d : ResourceData) : List PatchOp :=
  d.metadataDiff.map (fun p => { op := "replace", path := pathPref ++ p.1, value := p.2 })

/-- The outcome of one lifecycle operation: the updated local record, the
returned Go error (`none` for nil), and the trace of remote calls issued. -/
structure StepOut where
  d : ResourceData
  error : Option GoError
  calls : List ApiCall

/-- `resourceKubernetesPersistentVolumeClaimRead`: decode the identity, fetch
the claim, mirror observed metadata and spec into local state; errors
(including not-found) propagate. -/
def resourceKubernetesPersistentVolumeClaimRead (conn : Conn) (d : ResourceData) : StepOut :=
  match idParts d.id with
  | Except.error e => ⟨d, some e, []⟩
  | Except.ok (ns, name) =>
      match conn.getPVC ns name with
      | Except.error e => ⟨d, some e, [ApiCall.get ns name]⟩
      | Except.ok claim =>
          ⟨{ d with stateMetadata := some claim.objectMeta, stateSpec := some claim.spec },
            none, [ApiCall.get ns name]⟩

/-- The diagnostic branch of Create after a failed convergence wait
(`err != nil` after `WaitForState`): query the claim's own warning events
capped at 3; if that query fails return its error; if it returns an empty
set, query the backing volume's warning events (identity taken from
`out.Spec.VolumeName`) capped at 3, and if that query fails return its error;
otherwise fail with the wait error's message concatenated with the rendering
of the collected events. -/
def createDiagnostics (conn : Conn) (d1 : ResourceData) (out : PersistentVolumeClaim)
    (w : WaitResult) (callsSoFar : List ApiCall) : StepOut :=
  match getLastWarningsForObject conn out.objectMeta "PersistentVolumeClaim" 3 with
  | Except.error wErr =>
      ⟨d1, some wErr, callsSoFar ++ [ApiCall.listEvents "PersistentVolumeClaim" out.objectMeta 3]⟩
  | Except.ok lastWarnings =>
      if lastWarnings.length = 0 then
        match getLastWarningsForObject conn ⟨"", out.spec.volumeName⟩ "PersistentVolume" 3 with
        | Except.error wErr =>
            ⟨d1, some wErr,
              callsSoFar ++ [ApiCall.listEvents "PersistentVolumeClaim" out.objectMeta 3,
                ApiCall.listEvents "PersistentVolume" ⟨"", out.spec.volumeName⟩ 3]⟩
        | Except.ok lastWarnings2 =>
            ⟨d1, some (GoError.simple (waitErrorMessage w ++ stringifyEvents lastWarnings2)),
              callsSoFar ++ [ApiCall.listEvents "PersistentVolumeClaim" out.objectMeta 3,
                ApiCall.listEvents "PersistentVolume" ⟨"", out.spec.volumeName⟩ 3]⟩
      else
        ⟨d1, some (GoError.simple (waitErrorMessage w ++ stringifyEvents lastWarnings)),
          callsSoFar ++ [ApiCall.listEvents "PersistentVolumeClaim" out.objectMeta 3]⟩

/-- `resourceKubernetesPersistentVolumeClaimCreate`: expand the desired spec
(propagating expansion failure), issue the creation request, record the
identity of the created object, and — when `wait_until_bound` is set — run
the convergence waiter with target `["Bound"]` and pending `["Pending"]`
over the successive status polls; on wait failure run the diagnostic branch,
on wait success (or when the flag is unset) finish with a Read. -/
def resourceKubernetesPersistentVolumeClaimCreate (conn : Conn)
    (polls : List (Except GoError PersistentVolumeClaim)) (d : ResourceData) : StepOut :=
  match d.desiredSpec with
  | Except.error msg => ⟨d, some (GoError.simple msg), []⟩
  | Except.ok spec =>
      let claim : PersistentVolumeClaim :=
        { objectMeta := d.desiredMetadata, spec := spec, statusPhase := "" }
      match conn.createPVC d.desiredMetadata.ns claim with
      | Except.error e => ⟨d, some e, [ApiCall.create d.desiredMetadata.ns claim]⟩
      | Except.ok out =>
          let d1 := { d with id := buildId out.objectMeta }
          let callsSoFar := [ApiCall.create d.desiredMetadata.ns claim]
          if d.waitUntilBound then
            let callsW := callsSoFar ++ [ApiCall.wait ["Bound"] ["Pending"]]
            match waitForState ["Bound"] ["Pending"] "" polls with
            | WaitResult.success _ =>
                let r := resourceKubernetesPersistentVolumeClaimRead conn d1
                ⟨r.d, r.error, callsW ++ r.calls⟩
            | w =>
                createDiagnostics conn d1 out w callsW
          else
            let r := resourceKubernetesPersistentVolumeClaimRead conn d1
            ⟨r.d, r.error, callsSoFar ++ r.calls⟩

/-- `resourceKubernetesPersistentVolumeClaimUpdate`: decode the identity,
build the metadata-only patch document, apply it, and on success re-Read;
the whole spec is force-new, so nothing of it is patched, and no convergence
wait is involved. -/
def resourceKubernetesPersistentVolumeClaimUpdate (conn : Conn) (d : ResourceData) : StepOut :=
  match idParts d.id with
  | Except.error e => ⟨d, some e, []⟩
  | Except.ok (ns, name) =>
      let ops := patchMetadata "metadata.0." "/metadata/" d
      match conn.patchPVC ns name ops with
      | Except.error e => ⟨d, some e, [ApiCall.patch ns name ops]⟩
      | Except.ok _ =>
          let r := resourceKubernetesPersistentVolumeClaimRead conn d
          ⟨r.d, r.error, ApiCall.patch ns name ops :: r.calls⟩

/-- `resourceKubernetesPersistentVolumeClaimDelete`: decode the identity,
issue the deletion; any deletion error (a not-found status error included) is
returned as-is; only on a nil error is the local identity cleared. -/
def resourceKubernetesPersistentVolumeClaimDelete (conn : Conn) (d : ResourceData) : StepOut :=
  match idParts d.id with
  | Except.error e => ⟨d, some e, []⟩
  | Except.ok (ns, name) =>
      match conn.deletePVC ns name with
      | some e => ⟨d, some e, [ApiCall.delete ns name]⟩
      | none => ⟨{ d with id := "" }, none, [ApiCall.delete ns name]⟩

/-- `resourceKubernetesPersistentVolumeClaimExists`: decode the identity
(returning `(false, err)` on decode failure), issue a Get; a
`*errors.StatusError` with code 404 yields `(false, nil)`; otherwise the
probe returns `true` together with the Get's error (nil on success). -/
def resourceKubernetesPersistentVolumeClaimExists (conn : Conn) (d : ResourceData) :
    (Bool × Option GoError) × List ApiCall :=
  match idParts d.id with
  | Except.error e => ((false, some e), [])
  | Except.ok (ns, name) =>
      match conn.getPVC ns name with
      | Except.ok _ => ((true, none), [ApiCall.get ns name])
      | Except.error e =>
          match e with
          | GoError.status 404 _ => ((false, none), [ApiCall.get ns name])
          | _ => ((true, some e), [ApiCall.get ns name])

/-- The importer's `State` function: set `wait_until_bound` to true on the
given record and return it with a nil error; no remote call is issued. -/
def resourceKubernetesPersistentVolumeClaimImportState (d : ResourceData) :
    (List ResourceData × Option GoError) × List ApiCall :=
  (([{ d with waitUntilBound := true }], none), [])

/-- The resource's `Timeouts` block: the Create timeout defaults to
`5 * time.Minute`, expressed in seconds. -/
def resourceKubernetesPersistentVolumeClaimCreateTimeoutSeconds : Nat :=
  5 * 60

/-! ### Concrete fixtures used by the closed-form witnesses and counterexamples -/

/-- A concrete claim identity. -/
def sampleMeta : ObjectMeta := ⟨"default", "pvc1"⟩

/-- A concrete claim spec with no bound volume. -/
def sampleSpec : PersistentVolumeClaimSpec := ⟨""⟩

/-- A concrete claim at a given phase. -/
def sampleClaim (ph : String) : PersistentVolumeClaim := ⟨sampleMeta, sampleSpec, ph⟩

/-- A benign cluster: creation acknowledged at phase Pending, Get finds the
claim, patch succeeds, delete succeeds, no events recorded. -/
def sampleConn : Conn where
  createPVC := fun _ c => Except.ok { c with statusPhase := "Pending" }
  getPVC := fun _ _ => Except.ok (sampleClaim "Pending")
  patchPVC := fun _ _ _ => Except.ok (sampleClaim "Bound")
  deletePVC := fun _ _ => none
  listEvents := fun _ _ => Except.ok []

/-- A concrete local record for the sample claim. -/
def sampleData : ResourceData :=
  ⟨"default/pvc1", true, sampleMeta, Except.ok sampleSpec, [("labels/app", "web")], none, none⟩

/-- The sample cluster, but remote deletion reports a NotFound status error. -/
def connDelete404 : Conn :=
  { sampleConn with deletePVC := fun _ _ => some (GoError.status 404 "persistentvolumeclaims not found") }

/-- The sample cluster, but Get reports a NotFound status error. -/
def connGet404 : Conn :=
  { sampleConn with getPVC := fun _ _ => Except.error (GoError.status 404 "persistentvolumeclaims not found") }

/-- The sample cluster, but Get fails with a non-status transport error. -/
def connGetBroken : Conn :=
  { sampleConn with getPVC := fun _ _ => Except.error (GoError.simple "connection refused") }

/-- The object the sample cluster acknowledges at creation time: the desired
metadata and spec, observed at phase Pending. -/
def createdSample : PersistentVolumeClaim := ⟨sampleMeta, sampleSpec, "Pending"⟩

/-- A poll sequence whose first status is the unexpected phase Lost, so the
convergence wait fails immediately. -/
def pollsLost : List (Except GoError PersistentVolumeClaim) :=
  [Except.ok (sampleClaim "Lost")]

/-- The sample cluster, but the diagnostic event query fails. -/
def connEventsFail : Conn :=
  { sampleConn with listEvents := fun _ _ => Except.error (GoError.simple "events query failed") }

/-- A concrete warning event attached to the sample claim. -/
def sampleEvent : Event := ⟨"pvc1", "ProvisioningFailed", "storageclass not found", 10, true⟩

/-- The sample cluster, but the claim itself carries one warning event
(the backing volume carries none). -/
def connWithEvents : Conn :=
  { sampleConn with
      listEvents := fun kind _ =>
        if kind = "PersistentVolumeClaim" then Except.ok [sampleEvent] else Except.ok [] }

/-! ### Helper lemmas about the Create failure path -/

/-- On the wait-failure path, Create reduces to the diagnostic branch run on
the identity-bearing record, with the creation and waiter-invocation calls
already traced. -/
lemma create_waitFail_eq_diagnostics (conn : Conn)
    (polls : List (Except GoError PersistentVolumeClaim)) (d : ResourceData)
    (spec : PersistentVolumeClaimSpec) (out : PersistentVolumeClaim)
    (hspec : d.desiredSpec = Except.ok spec)
    (hcreate : conn.createPVC d.desiredMetadata.ns
        { objectMeta := d.desiredMetadata, spec := spec, statusPhase := "" } = Except.ok out)
    (hwait : d.waitUntilBound = true)
    (hfail : (waitForState ["Bound"] ["Pending"] "" polls).isSuccess = false) :
    resourceKubernetesPersistentVolumeClaimCreate conn polls d
      = createDiagnostics conn { d with id := buildId out.objectMeta } out
          (waitForState ["Bound"] ["Pending"] "" polls)
          [ApiCall.create d.desiredMetadata.ns
              { objectMeta := d.desiredMetadata, spec := spec, statusPhase := "" },
            ApiCall.wait ["Bound"] ["Pending"]] := by
  simp only [resourceKubernetesPersistentVolumeClaimCreate, hspec, hcreate, hwait, if_true]
  cases hw : waitForState ["Bound"] ["Pending"] "" polls with
  | success obs => rw [hw] at hfail; simp [WaitResult.isSuccess] at hfail
  | unexpectedPhase ph => rfl
  | pollError e => rfl
  | deadlineExceeded ph => rfl

/-- The diagnostic branch never changes the local record it is given. -/
lemma createDiagnostics_d (conn : Conn) (d1 : ResourceData) (out : PersistentVolumeClaim)
    (w : WaitResult) (callsSoFar : List ApiCall) :
    (createDiagnostics conn d1 out w callsSoFar).d = d1 := by
  unfold createDiagnostics
  split
  · rfl
  · split
    · split <;> rfl
    · rfl

/-- The calls traced by the diagnostic branch: the already-traced calls,
then the primary claim event query, then possibly the related volume event
query. -/
lemma createDiagnostics_calls (conn : Conn) (d1 : ResourceData)
    (out : PersistentVolumeClaim) (w : WaitResult) (callsSoFar : List ApiCall) :
    (createDiagnostics conn d1 out w callsSoFar).calls
        = callsSoFar ++ [ApiCall.listEvents "PersistentVolumeClaim" out.objectMeta 3]
      ∨ (createDiagnostics conn d1 out w callsSoFar).calls
        = callsSoFar ++ [ApiCall.listEvents "PersistentVolumeClaim" out.objectMeta 3,
            ApiCall.listEvents "PersistentVolume" ⟨"", out.spec.volumeName⟩ 3] := by
  unfold createDiagnostics
  split
  · exact Or.inl rfl
  · split
    · split
      · exact Or.inr rfl
      · exact Or.inr rfl
    · exact Or.inl rfl

/-! ### C1 — Delete on a NotFound deletion error -/

/-- C1 counterexample: with the remote Delete reporting a NotFound status
error (code 404), the Delete operation does not resolve to success with a
cleared identity — it returns the error and keeps the identity — so the
claim that not-found is treated as success with the local identity cleared
is false on this input. -/
theorem deleteNotFoundTreatedAsErrorRefutation :
    ¬ ((resourceKubernetesPersistentVolumeClaimDelete connDelete404 sampleData).error = none
        ∧ (resourceKubernetesPersistentVolumeClaimDelete connDelete404 sampleData).d.id = "") := by
  decide

/-- C1 (amended): any error from the remote Delete call — a NotFound status
error included — is returned as the operation's error and the persisted
identity is left unchanged; the identity is cleared exactly when the remote
Delete returns no error. -/
theorem deleteErrorPropagatesAndKeepsIdentity (conn : Conn) (d : ResourceData)
    (ns name : String) (hid : idParts d.id = Except.ok (ns, name)) :
    (∀ e : GoError, conn.deletePVC ns name = some e →
        (resourceKubernetesPersistentVolumeClaimDelete conn d).error = some e
          ∧ (resourceKubernetesPersistentVolumeClaimDelete conn d).d.id = d.id)
      ∧ (conn.deletePVC ns name = none →
        (resourceKubernetesPersistentVolumeClaimDelete conn d).error = none
          ∧ (resourceKubernetesPersistentVolumeClaimDelete conn d).d.id = "") := by
  constructor
  · intro e he
    simp [resourceKubernetesPersistentVolumeClaimDelete, hid, he]
  · intro he
    simp [resourceKubernetesPersistentVolumeClaimDelete, hid, he]

/-- C1 witness: the amended statement evaluated on the sample record with a
404-reporting deletion. -/
theorem deleteErrorPropagatesAndKeepsIdentityWitness :
    (resourceKubernetesPersistentVolumeClaimDelete connDelete404 sampleData).error
        = some (GoError.status 404 "persistentvolumeclaims not found")
      ∧ (resourceKubernetesPersistentVolumeClaimDelete connDelete404 sampleData).d.id
        = sampleData.id :=
  (deleteErrorPropagatesAndKeepsIdentity connDelete404 sampleData "default" "pvc1" rfl).1
    (GoError.status 404 "persistentvolumeclaims not found") rfl

/-! ### C3 — Exists probe semantics -/

/-- C3: the Exists probe returns `(false, nil)` when the Get fails with a
404 status error, `(true, nil)` when the Get succeeds, and on any other Get
error propagates that error unchanged (the accompanying boolean is not part
of this contract). -/
theorem existsProbeSemantics (conn : Conn) (d : ResourceData) (ns name : String)
    (hid : idParts d.id = Except.ok (ns, name)) :
    (∀ m, conn.getPVC ns name = Except.error (GoError.status 404 m) →
        (resourceKubernetesPersistentVolumeClaimExists conn d).1 = (false, none))
      ∧ (∀ claim, conn.getPVC ns name = Except.ok claim →
        (resourceKubernetesPersistentVolumeClaimExists conn d).1 = (true, none))
      ∧ (∀ e, conn.getPVC ns name = Except.error e → (∀ m, e ≠ GoError.status 404 m) →
        ((resourceKubernetesPersistentVolumeClaimExists conn d).1).2 = some e) := by
  refine ⟨?_, ?_, ?_⟩
  · intro m h
    simp [resourceKubernetesPersistentVolumeClaimExists, hid, h]
  · intro claim h
    simp [resourceKubernetesPersistentVolumeClaimExists, hid, h]
  · intro e h hne
    cases e with
    | status c m =>
        rcases eq_or_ne c 404 with hc | hc
        · exact absurd (hc ▸ rfl) (hne m)
        · simp [resourceKubernetesPersistentVolumeClaimExists, hid, h, hc]
    | simple m =>
        simp [resourceKubernetesPersistentVolumeClaimExists, hid, h]

/-- C3 witness: the probe evaluated on the sample record against a cluster
whose Get reports 404. -/
theorem existsProbeSemanticsWitness :
    (resourceKubernetesPersistentVolumeClaimExists connGet404 sampleData).1 = (false, none) :=
  (existsProbeSemantics connGet404 sampleData "default" "pvc1" rfl).1
    "persistentvolumeclaims not found" rfl

/-! ### C10 — Exists probe boolean on non-404 errors -/

/-- C10: whenever the Exists probe's Get fails with any error other than a
404 status error, the boolean returned alongside the propagated error is
`true`. -/
theorem existsProbeBooleanTrueOnOtherErrors (conn : Conn) (d : ResourceData)
    (ns name : String) (e : GoError)
    (hid : idParts d.id = Except.ok (ns, name))
    (hget : conn.getPVC ns name = Except.error e)
    (hne : ∀ m, e ≠ GoError.status 404 m) :
    ((resourceKubernetesPersistentVolumeClaimExists conn d).1).1 = true := by
  cases e with
  | status c m =>
      rcases eq_or_ne c 404 with hc | hc
      · exact absurd (hc ▸ rfl) (hne m)
      · simp [resourceKubernetesPersistentVolumeClaimExists, hid, hget, hc]
  | simple m =>
      simp [resourceKubernetesPersistentVolumeClaimExists, hid, hget]

/-- C10 witness: the probe evaluated against a cluster whose Get fails with
a transport error. -/
theorem existsProbeBooleanTrueOnOtherErrorsWitness :
    ((resourceKubernetesPersistentVolumeClaimExists connGetBroken sampleData).1).1 = true :=
  existsProbeBooleanTrueOnOtherErrors connGetBroken sampleData "default" "pvc1"
    (GoError.simple "connection refused") rfl rfl
    (fun _ h => GoError.noConfusion h)

/-! ### C9 — Import path -/

/-- C9: the import path seeds every returned record with the wait-flag set
to true, resolves with a nil error, and issues no remote call. -/
theorem importSeedsWaitFlagWithoutClusterCalls (d : ResourceData) :
    (resourceKubernetesPersistentVolumeClaimImportState d).1.2 = none
      ∧ ((resourceKubernetesPersistentVolumeClaimImportState d).1.1).all
          (fun d' => d'.waitUntilBound) = true
      ∧ (resourceKubernetesPersistentVolumeClaimImportState d).2 = [] := by
  refine ⟨rfl, ?_, rfl⟩
  simp [resourceKubernetesPersistentVolumeClaimImportState]

/-! ### C4 — Waiter configuration on Create -/

/-- C4: with the wait-flag set and the creation acknowledged, Create invokes
the convergence waiter configured with success set exactly {Bound} and
pending set exactly {Pending} (the waiter takes no failure set), the Create
deadline defaults to 5 minutes, and any polled phase outside those two sets
resolves the wait as a failure carrying that phase. -/
theorem createWaiterConfiguration (conn : Conn)
    (polls : List (Except GoError PersistentVolumeClaim)) (d : ResourceData)
    (spec : PersistentVolumeClaimSpec) (out : PersistentVolumeClaim)
    (hspec : d.desiredSpec = Except.ok spec)
    (hcreate : conn.createPVC d.desiredMetadata.ns
        { objectMeta := d.desiredMetadata, spec := spec, statusPhase := "" } = Except.ok out)
    (hwait : d.waitUntilBound = true) :
    ApiCall.wait ["Bound"] ["Pending"] ∈
        (resourceKubernetesPersistentVolumeClaimCreate conn polls d).calls
      ∧ resourceKubernetesPersistentVolumeClaimCreateTimeoutSeconds = 5 * 60
      ∧ (∀ (obs : PersistentVolumeClaim) (rest : List (Except GoError PersistentVolumeClaim))
          (last : String), obs.statusPhase ≠ "Bound" → obs.statusPhase ≠ "Pending" →
          waitForState ["Bound"] ["Pending"] last (Except.ok obs :: rest)
            = WaitResult.unexpectedPhase obs.statusPhase) := by
  refine ⟨?_, rfl, ?_⟩
  · simp only [resourceKubernetesPersistentVolumeClaimCreate, hspec, hcreate, hwait, if_true]
    split
    · simp
    · rcases createDiagnostics_calls conn _ _ _ _ with h | h <;> rw [h] <;> simp
  · intro obs rest last h1 h2
    simp [waitForState, List.contains, h1, h2]

/-- C4 witness: the configuration statement evaluated on the sample record
against the sample cluster with a failing poll sequence. -/
theorem createWaiterConfigurationWitness :
    ApiCall.wait ["Bound"] ["Pending"] ∈
      (resourceKubernetesPersistentVolumeClaimCreate sampleConn pollsLost sampleData).calls :=
  (createWaiterConfiguration sampleConn pollsLost sampleData sampleSpec createdSample
    rfl rfl rfl).1

/-! ### C7 — Wait failure retains the recorded identity -/

/-- C7: when the creation request succeeded but the convergence wait fails,
the local record still carries the identity of the created object and no
remote deletion was issued, so a subsequent Read or Delete still targets the
created resource. -/
theorem createWaitFailureRetainsIdentity (conn : Conn)
    (polls : List (Except GoError PersistentVolumeClaim)) (d : ResourceData)
    (spec : PersistentVolumeClaimSpec) (out : PersistentVolumeClaim)
    (hspec : d.desiredSpec = Except.ok spec)
    (hcreate : conn.createPVC d.desiredMetadata.ns
        { objectMeta := d.desiredMetadata, spec := spec, statusPhase := "" } = Except.ok out)
    (hwait : d.waitUntilBound = true)
    (hfail : (waitForState ["Bound"] ["Pending"] "" polls).isSuccess = false) :
    (resourceKubernetesPersistentVolumeClaimCreate conn polls d).d.id = buildId out.objectMeta
      ∧ (∀ ns name, ApiCall.delete ns name ∉
          (resourceKubernetesPersistentVolumeClaimCreate conn polls d).calls) := by
  rw [create_waitFail_eq_diagnostics conn polls d spec out hspec hcreate hwait hfail]
  constructor
  · rw [createDiagnostics_d]
  · intro ns name
    rcases createDiagnostics_calls conn { d with id := buildId out.objectMeta } out
        (waitForState ["Bound"] ["Pending"] "" polls) _ with h | h <;> rw [h] <;> simp

/-- C7 witness: identity retention evaluated on the sample record against
the sample cluster with a failing poll sequence. -/
theorem createWaitFailureRetainsIdentityWitness :
    (resourceKubernetesPersistentVolumeClaimCreate sampleConn pollsLost sampleData).d.id
        = buildId sampleMeta
      ∧ ApiCall.delete "default" "pvc1" ∉
          (resourceKubernetesPersistentVolumeClaimCreate sampleConn pollsLost sampleData).calls :=
  ⟨(createWaitFailureRetainsIdentity sampleConn pollsLost sampleData sampleSpec createdSample
      rfl rfl rfl rfl).1,
    (createWaitFailureRetainsIdentity sampleConn pollsLost sampleData sampleSpec createdSample
      rfl rfl rfl rfl).2 "default" "pvc1"⟩

/-! ### C2 — Related-object diagnostic query and the bound-volume name -/

/-- C2 counterexample: the created sample claim carries no bound-volume name
(its `VolumeName` is empty), the wait fails and the primary warning set is
empty, yet Create still issues the related backing-volume event query (with
the empty name) — so the claim that the related-object query is omitted when
the claim has no bound volume name is false on this input. -/
theorem relatedQueryNotOmittedRefutation :
    createdSample.spec.volumeName = ""
      ∧ ApiCall.listEvents "PersistentVolume" ⟨"", ""⟩ 3 ∈
          (resourceKubernetesPersistentVolumeClaimCreate sampleConn pollsLost sampleData).calls := by
  constructor
  · rfl
  · decide

/-- C2 (amended): on a convergence-wait failure during Create with the
primary claim's warning-event set empty, the related backing-volume event
query is always issued, addressed by the bound-volume name recorded on the
created object — even when that name is empty. -/
theorem relatedQueryAlwaysIssuedOnEmptyPrimary (conn : Conn)
    (polls : List (Except GoError PersistentVolumeClaim)) (d : ResourceData)
    (spec : PersistentVolumeClaimSpec) (out : PersistentVolumeClaim)
    (hspec : d.desiredSpec = Except.ok spec)
    (hcreate : conn.createPVC d.desiredMetadata.ns
        { objectMeta := d.desiredMetadata, spec := spec, statusPhase := "" } = Except.ok out)
    (hwait : d.waitUntilBound = true)
    (hfail : (waitForState ["Bound"] ["Pending"] "" polls).isSuccess = false)
    (hprimary : getLastWarningsForObject conn out.objectMeta "PersistentVolumeClaim" 3
        = Except.ok []) :
    ApiCall.listEvents "PersistentVolume" ⟨"", out.spec.volumeName⟩ 3 ∈
      (resourceKubernetesPersistentVolumeClaimCreate conn polls d).calls := by
  rw [create_waitFail_eq_diagnostics conn polls d spec out hspec hcreate hwait hfail]
  unfold createDiagnostics
  rw [hprimary]
  cases hr : getLastWarningsForObject conn ⟨"", out.spec.volumeName⟩ "PersistentVolume" 3 <;>
    simp

/-- C2 witness: the amended statement evaluated on the sample record, whose
created claim has an empty bound-volume name. -/
theorem relatedQueryAlwaysIssuedOnEmptyPrimaryWitness :
    ApiCall.listEvents "PersistentVolume" ⟨"", createdSample.spec.volumeName⟩ 3 ∈
      (resourceKubernetesPersistentVolumeClaimCreate sampleConn pollsLost sampleData).calls :=
  relatedQueryAlwaysIssuedOnEmptyPrimary sampleConn pollsLost sampleData sampleSpec
    createdSample rfl rfl rfl rfl rfl

/-! ### C5 — Diagnostic-error precedence on the wait-failure path -/

/-- C5: on a convergence-wait failure during Create, a failing warning-event
lookup (for the primary claim, or for the related volume after an empty
primary result) makes Create return that lookup error alone, replacing the
wait error; otherwise Create returns the wait error's message concatenated
with the rendering of the collected events. -/
theorem createDiagnosticErrorPrecedence (conn : Conn)
    (polls : List (Except GoError PersistentVolumeClaim)) (d : ResourceData)
    (spec : PersistentVolumeClaimSpec) (out : PersistentVolumeClaim)
    (hspec : d.desiredSpec = Except.ok spec)
    (hcreate : conn.createPVC d.desiredMetadata.ns
        { objectMeta := d.desiredMetadata, spec := spec, statusPhase := "" } = Except.ok out)
    (hwait : d.waitUntilBound = true)
    (hfail : (waitForState ["Bound"] ["Pending"] "" polls).isSuccess = false) :
    (∀ e, getLastWarningsForObject conn out.objectMeta "PersistentVolumeClaim" 3
        = Except.error e →
        (resourceKubernetesPersistentVolumeClaimCreate conn polls d).error = some e)
      ∧ (∀ e, getLastWarningsForObject conn out.objectMeta "PersistentVolumeClaim" 3
          = Except.ok [] →
        getLastWarningsForObject conn ⟨"", out.spec.volumeName⟩ "PersistentVolume" 3
          = Except.error e →
        (resourceKubernetesPersistentVolumeClaimCreate conn polls d).error = some e)
      ∧ (∀ l, getLastWarningsForObject conn out.objectMeta "PersistentVolumeClaim" 3
          = Except.ok l → l ≠ [] →
        (resourceKubernetesPersistentVolumeClaimCreate conn polls d).error
          = some (GoError.simple
              (waitErrorMessage (waitForState ["Bound"] ["Pending"] "" polls)
                ++ stringifyEvents l)))
      ∧ (∀ l2, getLastWarningsForObject conn out.objectMeta "PersistentVolumeClaim" 3
          = Except.ok [] →
        getLastWarningsForObject conn ⟨"", out.spec.volumeName⟩ "PersistentVolume" 3
          = Except.ok l2 →
        (resourceKubernetesPersistentVolumeClaimCreate conn polls d).error
          = some (GoError.simple
              (waitErrorMessage (waitForState ["Bound"] ["Pending"] "" polls)
                ++ stringifyEvents l2))) := by
  rw [create_waitFail_eq_diagnostics conn polls d spec out hspec hcreate hwait hfail]
  unfold createDiagnostics
  refine ⟨?_, ?_, ?_, ?_⟩
  · intro e he
    rw [he]
  · intro e hp hr
    rw [hp]
    simp [hr]
  · intro l hp hne
    rw [hp]
    have hlen : l.length ≠ 0 := fun h => hne (List.length_eq_zero.mp h)
    simp [hlen]
  · intro l2 hp hr
    rw [hp]
    simp [hr]

/-- C5 witness: with a failing event query, Create's error is exactly the
diagnostic-query error. -/
theorem createDiagnosticErrorPrecedenceWitness :
    (resourceKubernetesPersistentVolumeClaimCreate connEventsFail pollsLost sampleData).error
      = some (GoError.simple "events query failed") :=
  (createDiagnosticErrorPrecedence connEventsFail pollsLost sampleData sampleSpec
    createdSample rfl rfl rfl rfl).1 (GoError.simple "events query failed") rfl

/-! ### C6 — Diagnostic fallback policy and event cap -/

/-- C6: on a convergence-wait failure during Create, the primary claim's
warning events are queried (capped at 3); the related volume's warning
events are queried — likewise capped at 3 and after the primary query — if
and only if the primary result set is empty; and every successful
warning-event query returns at most its cap of events. -/
theorem createDiagnosticFallbackPolicy (conn : Conn)
    (polls : List (Except GoError PersistentVolumeClaim)) (d : ResourceData)
    (spec : PersistentVolumeClaimSpec) (out : PersistentVolumeClaim)
    (hspec : d.desiredSpec = Except.ok spec)
    (hcreate : conn.createPVC d.desiredMetadata.ns
        { objectMeta := d.desiredMetadata, spec := spec, statusPhase := "" } = Except.ok out)
    (hwait : d.waitUntilBound = true)
    (hfail : (waitForState ["Bound"] ["Pending"] "" polls).isSuccess = false) :
    ApiCall.listEvents "PersistentVolumeClaim" out.objectMeta 3 ∈
        (resourceKubernetesPersistentVolumeClaimCreate conn polls d).calls
      ∧ (∀ l, getLastWarningsForObject conn out.objectMeta "PersistentVolumeClaim" 3
          = Except.ok l → l ≠ [] →
          ∀ m c, ApiCall.listEvents "PersistentVolume" m c ∉
            (resourceKubernetesPersistentVolumeClaimCreate conn polls d).calls)
      ∧ (getLastWarningsForObject conn out.objectMeta "PersistentVolumeClaim" 3
          = Except.ok [] →
          (resourceKubernetesPersistentVolumeClaimCreate conn polls d).calls
            = [ApiCall.create d.desiredMetadata.ns
                  { objectMeta := d.desiredMetadata, spec := spec, statusPhase := "" },
                ApiCall.wait ["Bound"] ["Pending"],
                ApiCall.listEvents "PersistentVolumeClaim" out.objectMeta 3,
                ApiCall.listEvents "PersistentVolume" ⟨"", out.spec.volumeName⟩ 3])
      ∧ (∀ m k c r, getLastWarningsForObject conn m k c = Except.ok r → r.length ≤ c) := by
  rw [create_waitFail_eq_diagnostics conn polls d spec out hspec hcreate hwait hfail]
  refine ⟨?_, ?_, ?_, ?_⟩
  · rcases createDiagnostics_calls conn { d with id := buildId out.objectMeta } out
        (waitForState ["Bound"] ["Pending"] "" polls) _ with h | h <;> rw [h] <;> simp
  · intro l hp hne m c
    unfold createDiagnostics
    rw [hp]
    have hlen : l.length ≠ 0 := fun h => hne (List.length_eq_zero.mp h)
    simp [hlen]
  · intro hp
    unfold createDiagnostics
    rw [hp]
    cases hr : getLastWarningsForObject conn ⟨"", out.spec.volumeName⟩ "PersistentVolume" 3 <;>
      simp
  · intro m k c r hr
    unfold getLastWarningsForObject at hr
    rcases hEv : conn.listEvents k m with e | evs <;> rw [hEv] at hr
    · exact absurd hr (by simp)
    · have := (Except.ok.injEq _ _).mp hr
      rw [← this]
      exact List.length_take_le c _

/-- C6 witness: with the sample claim carrying one warning event, the
primary query appears in Create's trace. -/
theorem createDiagnosticFallbackPolicyWitness :
    ApiCall.listEvents "PersistentVolumeClaim" sampleMeta 3 ∈
      (resourceKubernetesPersistentVolumeClaimCreate connWithEvents pollsLost sampleData).calls :=
  (createDiagnosticFallbackPolicy connWithEvents pollsLost sampleData sampleSpec
    createdSample rfl rfl rfl rfl).1

/-! ### C8 — Update patches metadata only, then reads, never waits -/

/-- C8: the patch document Update builds consists solely of operations whose
paths lie under the metadata sub-tree (none lies under spec); Update never
invokes the convergence waiter; and after a successful patch Update performs
exactly a Read. -/
theorem updatePatchesMetadataOnlyThenReads (conn : Conn) (d : ResourceData) (ns name : String)
    (hid : idParts d.id = Except.ok (ns, name)) :
    (∀ op ∈ patchMetadata "metadata.0." "/metadata/" d,
        "/metadata/".data <+: op.path.data ∧ ¬ ("/spec".data <+: op.path.data))
      ∧ (∀ t p, ApiCall.wait t p ∉
          (resourceKubernetesPersistentVolumeClaimUpdate conn d).calls)
      ∧ (∀ res, conn.patchPVC ns name (patchMetadata "metadata.0." "/metadata/" d)
          = Except.ok res →
          (resourceKubernetesPersistentVolumeClaimUpdate conn d).calls
              = ApiCall.patch ns name (patchMetadata "metadata.0." "/metadata/" d)
                  :: (resourceKubernetesPersistentVolumeClaimRead conn d).calls
            ∧ (resourceKubernetesPersistentVolumeClaimUpdate conn d).d
              = (resourceKubernetesPersistentVolumeClaimRead conn d).d) := by
  refine ⟨?_, ?_, ?_⟩
  · intro op hop
    simp only [patchMetadata, List.mem_map] at hop
    obtain ⟨a, _, rfl⟩ := hop
    constructor
    · show "/metadata/".data <+: ("/metadata/" ++ a.1).data
      rw [String.data_append]
      exact List.prefix_append _ _
    · show ¬ ("/spec".data <+: ("/metadata/" ++ a.1).data)
      rw [String.data_append]
      rintro ⟨t, ht⟩
      simp at ht
  · intro t p
    simp only [resourceKubernetesPersistentVolumeClaimUpdate, hid]
    cases hpr : conn.patchPVC ns name (patchMetadata "metadata.0." "/metadata/" d) with
    | error e => simp
    | ok res =>
        simp only [resourceKubernetesPersistentVolumeClaimRead, hid]
        cases hg : conn.getPVC ns name <;> simp
  · intro res hres
    simp [resourceKubernetesPersistentVolumeClaimUpdate, hid, hres]

/-- C8 witness: the patch-then-read behaviour evaluated on the sample record
against the sample cluster. -/
theorem updatePatchesMetadataOnlyThenReadsWitness :
    (resourceKubernetesPersistentVolumeClaimUpdate sampleConn sampleData).calls
        = ApiCall.patch "default" "pvc1" (patchMetadata "metadata.0." "/metadata/" sampleData)
            :: (resourceKubernetesPersistentVolumeClaimRead sampleConn sampleData).calls
      ∧ (resourceKubernetesPersistentVolumeClaimUpdate sampleConn sampleData).d
        = (resourceKubernetesPersistentVolumeClaimRead sampleConn sampleData).d :=
  (updatePatchesMetadataOnlyThenReads sampleConn sampleData "default" "pvc1" rfl).2.2
    (sampleClaim "Bound") rfl
